import Mathlib

/-!
Shallow embedding of WebKit's `Source/WebCore/platform/graphics/cg/GraphicsContextCG.cpp`
(the CoreGraphics backend of the 2D drawing context), for checking the
natural-language specification against the code.

Conventions:
* Scalar values (`float`, `double`, `CGFloat`) are modelled as `ℚ`.
* The CoreGraphics backend is modelled by an explicit state record plus a trace
  of emitted backend calls (`CGOp`).  Sequences of backend calls whose internals
  no claim depends on (gradient painting via an offscreen layer, for example)
  are abstracted to a single marker op.
* Square roots computed by the C++ (`AffineTransform::xScale`, the small
  eigenvalue factor in `scaledBlurRadius`) are irrational in general, so they
  are passed to the embedded functions as explicit inputs, characterized
  exactly by decidable/propositional predicates (`IsXScale`, `IsSmallEigenvalue`).
-/

namespace GCCG

/-- CoreGraphics path drawing modes (`CGPathDrawingMode`). -/
inductive CGPathDrawingMode where
  | fill
  | eoFill
  | stroke
  | fillStroke
  | eoFillStroke
deriving DecidableEq, Repr

/-- Fill rules (`WindRule`). -/
inductive WindRule where
  | nonZero
  | evenOdd
deriving DecidableEq, Repr

/-- Stroke styles (`StrokeStyle`); `calculateDrawingMode` only distinguishes
`NoStroke` from the rest. -/
inductive StrokeStyle where
  | noStroke
  | solidStroke
  | dottedStroke
  | dashedStroke
deriving DecidableEq, Repr

/-- Interpolation qualities as CoreGraphics sees them (`CGInterpolationQuality`). -/
inductive CGInterpolationQuality where
  | default
  | none
  | low
  | medium
  | high
deriving DecidableEq, Repr

/-- CoreGraphics context types (`CGContextGetType` results used by the code). -/
inductive CGContextType where
  | bitmap
  | ioSurface
  | pdf
  | unknown
deriving DecidableEq, Repr

/-- Rendering modes (`RenderingMode`). -/
inductive RenderingMode where
  | unaccelerated
  | accelerated
  | pdfDocument
deriving DecidableEq, Repr

/-- Modelled from the spec: `WebCore::Color` is an external collaborator (not in
the excerpt).  The spec distinguishes an "invalid/unparseable" color from a
"fully-transparent" one, so the model carries a validity flag and an alpha
component; a fully transparent color is a valid color whose alpha is 0. -/
structure Color where
  isValid : Bool
  alpha : ℚ
deriving DecidableEq, Repr

/-- A fully transparent (but valid) color. -/
def Color.transparent : Color := ⟨true, 0⟩

/-- An opaque valid color stand-in. -/
def Color.opaqueBlack : Color := ⟨true, 1⟩

/-- Modelled from the spec: a brush ("fill brush"/"stroke brush") is a solid
color, a gradient, or a pattern — "solid/gradient/pattern all indicate
'should fill'".  `isVisible` is true when a gradient or pattern is present or
the solid color is valid and not fully transparent. -/
structure SourceBrush where
  color : Color
  gradient : Bool
  pattern : Bool
deriving DecidableEq, Repr

/-- Brush visibility (`SourceBrush::isVisible`, modelled from the spec). -/
def SourceBrush.isVisible (b : SourceBrush) : Bool :=
  b.gradient || b.pattern || (b.color.isValid && !(b.color.alpha == 0))

/-- A brush that paints nothing. -/
def SourceBrush.invisible : SourceBrush := ⟨⟨false, 0⟩, false, false⟩

/-- Sizes with rational components (`FloatSize`, `CGSize`). -/
structure FloatSize where
  width : ℚ
  height : ℚ
deriving DecidableEq, Repr

/-- `FloatSize::isZero`: both components are zero. -/
def FloatSize.isZero (s : FloatSize) : Bool :=
  s.width == 0 && s.height == 0

/-- Rectangles with rational components (`FloatRect`, `CGRect`). -/
structure FloatRect where
  x : ℚ
  y : ℚ
  width : ℚ
  height : ℚ
deriving DecidableEq, Repr

/-- `FloatRect::maxX`. -/
def FloatRect.maxX (r : FloatRect) : ℚ := r.x + r.width

/-- `FloatRect::maxY`. -/
def FloatRect.maxY (r : FloatRect) : ℚ := r.y + r.height

/-- `FloatRect::isEmpty`: nonpositive width or height. -/
def FloatRect.isEmpty (r : FloatRect) : Bool :=
  r.width ≤ 0 || r.height ≤ 0

/-- Modelled from the spec (§4.3 step 1, "Normalize both rectangles
(non-negative width/height)"): flips a rectangle with negative width/height so
that the result covers the same points with non-negative extents. -/
def normalizeRect (r : FloatRect) : FloatRect :=
  ⟨min r.x r.maxX, min r.y r.maxY, |r.width|, |r.height|⟩

/-- Modelled from the spec (§4.3 step 1, "Reject (no-op) if the source
rectangle does not intersect the image bounds"): nonempty open-interval
overlap on both axes. -/
def FloatRect.intersects (a b : FloatRect) : Bool :=
  !a.isEmpty && !b.isEmpty
    && a.x < b.maxX && b.x < a.maxX && a.y < b.maxY && b.y < a.maxY

/-- The zero rectangle (`CGRectZero`). -/
def zeroRect : FloatRect := ⟨0, 0, 0, 0⟩

/-- 2D affine transforms, fields as in `CGAffineTransform` /
`WebCore::AffineTransform` (a b c d tx ty). -/
structure AffineTransform where
  a : ℚ
  b : ℚ
  c : ℚ
  d : ℚ
  tx : ℚ
  ty : ℚ
deriving DecidableEq, Repr

/-- The identity transform. -/
def AffineTransform.identity : AffineTransform := ⟨1, 0, 0, 1, 0, 0⟩

/-- `AffineTransform::isRotateOrShear`: the off-diagonal linear entries are not
both zero. -/
def AffineTransform.isRotateOrShear (t : AffineTransform) : Bool :=
  !(t.b == 0) || !(t.c == 0)

/-- `AffineTransform::isInvertible`: nonzero determinant of the linear part. -/
def AffineTransform.isInvertible (t : AffineTransform) : Bool :=
  !(t.a * t.d - t.b * t.c == 0)

/-- `CGSizeApplyAffineTransform`: applies only the linear part of the
transform to a size. -/
def applySizeTransform (t : AffineTransform) (s : FloatSize) : FloatSize :=
  ⟨t.a * s.width + t.c * s.height, t.b * s.width + t.d * s.height⟩

/-- `AffineTransform::xScale` returns `sqrt(a^2 + b^2)`, which is irrational in
general; the embedding passes the value as an input and ties it to the
transform with this predicate. -/
def IsXScale (t : AffineTransform) (v : ℚ) : Prop :=
  0 ≤ v ∧ v ^ 2 = t.a ^ 2 + t.b ^ 2

/-- `AffineTransform::yScale` returns `sqrt(c^2 + d^2)`; same treatment as
`IsXScale`. -/
def IsYScale (t : AffineTransform) (v : ℚ) : Prop :=
  0 ≤ v ∧ v ^ 2 = t.c ^ 2 + t.d ^ 2

/-- A drop shadow (`GraphicsDropShadow`): offset, blur radius, color, opacity. -/
structure DropShadow where
  offset : FloatSize
  radius : ℚ
  color : Color
  opacity : ℚ
deriving DecidableEq, Repr

/-- The drawing-state and context-wide fields of `GraphicsContextCG` that the
claims touch (`m_state` fields plus the rendering mode). -/
structure ContextState where
  fillBrush : SourceBrush
  strokeBrush : SourceBrush
  strokeStyle : StrokeStyle
  fillRule : WindRule
  dropShadow : Option DropShadow
  shadowsIgnoreTransforms : Bool
  renderingMode : RenderingMode
  alpha : ℚ
deriving DecidableEq, Repr

/-- `fillColor()`: the fill brush's solid color. -/
def ContextState.fillColor (ctx : ContextState) : Color := ctx.fillBrush.color

/-- `hasDropShadow()`: a drop shadow is present in the state. -/
def ContextState.hasDropShadow (ctx : ContextState) : Bool :=
  ctx.dropShadow.isSome

/-- Modelled from the spec (§4.5: rect shadows with solid fills use the
dedicated low-level blur routine only for a blurred shadow): the state carries
a drop shadow with a positive blur radius. -/
def ContextState.hasBlurredDropShadow (ctx : ContextState) : Bool :=
  match ctx.dropShadow with
  | some sh => decide (0 < sh.radius)
  | none => false

/-- `GraphicsContextCG::canUseShadowBlur`. -/
def canUseShadowBlur (ctx : ContextState) : Bool :=
  ctx.renderingMode == RenderingMode.unaccelerated
    && ctx.hasBlurredDropShadow
    && !ctx.shadowsIgnoreTransforms

/-- The observables of a `Path` used by this file; path geometry itself is an
external collaborator (spec §1: "path geometry construction ... out of
scope"). -/
structure Path where
  isEmpty : Bool
  singleDataLine : Bool
deriving DecidableEq, Repr

/-- Which base rectangle `clipOut(rect)` unions with the rectangle to subtract:
the mathematically infinite rectangle (`CGRectInfinite`) or the current clip
bounding box. -/
inductive ClipOutBase where
  | infiniteRect
  | clipBoundingBox
deriving DecidableEq, Repr

/-- A shadow/blur style installed on the backend (`CGStyleCreateShadow2`). -/
structure CGShadowStyle where
  offset : FloatSize
  radius : ℚ
  color : Color
deriving DecidableEq, Repr

/-- Backend calls emitted by the embedded operations.  Calls whose internals no
claim depends on are single markers (the gradient-painting sequences). -/
inductive CGOp where
  | saveGState
  | restoreGState
  | beginPath
  | addPath
  | addRect (r : FloatRect)
  | addClipOutRects (base : ClipOutBase) (r : FloatRect)
  | clip
  | eoClip
  | clipToRect (r : FloatRect)
  | drawPathDirect (m : CGPathDrawingMode)
  | applyFillPattern
  | applyStrokePattern
  | paintFillGradient (viaLayer : Bool)
  | paintStrokeGradient (viaLayer : Bool)
  | strokeLineSegments
  | setFillColor (c : Color)
  | setShadowStyle (s : CGShadowStyle)
  | clearStyle
  | setAlpha (a : ℚ)
  | fillRect (r : FloatRect) (fillColorUsed : Color)
  | drawRectShadow (r : FloatRect)
  | drawTiledImage
  | patternFill
deriving DecidableEq, Repr

/-- `calculateDrawingMode` (static helper, `GraphicsContextCG.cpp`): returns
whether anything should be drawn and, if so, the `CGPathDrawingMode` to use.
`mode` is set to `stroke` in the no-fill case even when nothing will be drawn,
exactly as the C++ initializes the out-parameter. -/
def calculateDrawingMode (ctx : ContextState) : Bool × CGPathDrawingMode :=
  let shouldFill := ctx.fillBrush.isVisible
  let shouldStroke := ctx.strokeBrush.isVisible || !(ctx.strokeStyle == StrokeStyle.noStroke)
  let useEOFill := ctx.fillRule == WindRule.evenOdd
  let mode :=
    if shouldFill then
      if shouldStroke then
        if useEOFill then CGPathDrawingMode.eoFillStroke else CGPathDrawingMode.fillStroke
      else
        if useEOFill then CGPathDrawingMode.eoFill else CGPathDrawingMode.fill
    else
      CGPathDrawingMode.stroke
  (shouldFill || shouldStroke, mode)

/-- `shouldFill` as `calculateDrawingMode` computes it: the fill brush is
visible. -/
def shouldFill (ctx : ContextState) : Bool := ctx.fillBrush.isVisible

/-- `shouldStroke` as `calculateDrawingMode` computes it: the stroke brush is
visible or the stroke style is not `NoStroke`. -/
def shouldStroke (ctx : ContextState) : Bool :=
  ctx.strokeBrush.isVisible || !(ctx.strokeStyle == StrokeStyle.noStroke)

/-- `useEOFill` as `calculateDrawingMode` computes it. -/
def useEOFill (ctx : ContextState) : Bool := ctx.fillRule == WindRule.evenOdd

/-- `GraphicsContextCG::fillPath`, as the trace of backend calls it emits.
The gradient branches are abstracted to one marker each (offscreen-layer path
when a drop shadow is active, clipped direct paint otherwise). -/
def fillPathOps (ctx : ContextState) (path : Path) : List CGOp :=
  if path.isEmpty then []
  else if ctx.fillBrush.gradient then
    if ctx.hasDropShadow then [CGOp.paintFillGradient true]
    else [CGOp.paintFillGradient false]
  else
    (if ctx.fillBrush.pattern then [CGOp.applyFillPattern] else [])
      ++ [CGOp.drawPathDirect
            (if ctx.fillRule == WindRule.evenOdd then CGPathDrawingMode.eoFill
             else CGPathDrawingMode.fill)]

/-- `GraphicsContextCG::strokePath`, as the trace of backend calls it emits. -/
def strokePathOps (ctx : ContextState) (path : Path) : List CGOp :=
  if path.isEmpty then []
  else if ctx.strokeBrush.gradient then
    if ctx.hasDropShadow then [CGOp.paintStrokeGradient true]
    else [CGOp.paintStrokeGradient false]
  else
    (if ctx.strokeBrush.pattern then [CGOp.applyStrokePattern] else [])
      ++ (if path.singleDataLine then [CGOp.strokeLineSegments]
          else [CGOp.drawPathDirect CGPathDrawingMode.stroke])

/-- `GraphicsContextCG::drawPath`, as the trace of backend calls it emits:
empty path is a no-op; a gradient on either brush falls back to independent
fill and stroke passes; otherwise patterns are applied and a single combined
draw call is issued when `calculateDrawingMode` says anything is drawn. -/
def drawPathOps (ctx : ContextState) (path : Path) : List CGOp :=
  if path.isEmpty then []
  else if ctx.fillBrush.gradient || ctx.strokeBrush.gradient then
    fillPathOps ctx path ++ strokePathOps ctx path
  else
    (if ctx.fillBrush.pattern then [CGOp.applyFillPattern] else [])
      ++ (if ctx.strokeBrush.pattern then [CGOp.applyStrokePattern] else [])
      ++ (if (calculateDrawingMode ctx).1 then
            [CGOp.drawPathDirect (calculateDrawingMode ctx).2]
          else [])

/-- The backend (CoreGraphics) state tracked by the embedding: fill color,
installed shadow/blur style, global alpha, and the `CGContextSaveGState`
snapshot stack. -/
structure BackendState where
  fillColor : Color
  style : Option CGShadowStyle
  alpha : ℚ
  gstack : List (Color × Option CGShadowStyle × ℚ)
deriving DecidableEq, Repr

/-- `CGContextSaveGState`: push a snapshot of the tracked backend fields. -/
def BackendState.push (B : BackendState) : BackendState :=
  { B with gstack := (B.fillColor, B.style, B.alpha) :: B.gstack }

/-- `CGContextRestoreGState`: pop the most recent snapshot back into the
tracked backend fields (no-op on an empty CG stack, which no embedded
operation produces). -/
def BackendState.pop (B : BackendState) : BackendState :=
  match B.gstack with
  | [] => B
  | (fc, st, al) :: rest => ⟨fc, st, al, rest⟩

/-- The whole context: the current drawing state, the save/restore stack of
drawing states, the backend state, the cached "user-to-device transform known
to be identity" flag, and the trace of backend calls emitted so far. -/
structure GC where
  state : ContextState
  stack : List ContextState
  backend : BackendState
  identityFlag : Bool
  ops : List CGOp
deriving DecidableEq, Repr

/-- `GraphicsContextCG::restore`: returns immediately when `stackSize()` is 0;
otherwise pops the state stack (the base-class `GraphicsContext::restore`,
modelled from the spec: "pops and reverts the backend to the prior snapshot"),
issues `CGContextRestoreGState`, and conservatively clears the cached identity
flag. -/
def restoreCG (g : GC) : GC :=
  match g.stack with
  | [] => g
  | s :: rest =>
    { state := s
      stack := rest
      backend := g.backend.pop
      identityFlag := false
      ops := g.ops ++ [CGOp.restoreGState] }

/-- `GraphicsContextCG::save`: the base-class push (modelled from the spec:
"pushes a copy of the current state") plus `CGContextSaveGState`. -/
def saveCG (g : GC) : GC :=
  { state := g.state
    stack := g.state :: g.stack
    backend := g.backend.push
    identityFlag := g.identityFlag
    ops := g.ops ++ [CGOp.saveGState] }

/-- The `shouldUseSubimage` lambda in `GraphicsContextCG::drawNativeImage`.
`essEq` stands for the external `WTF::areEssentiallyEqual` (approximate
floating-point equality, not in the excerpt); `txScale`/`tyScale` stand for
`transform.xScale()`/`transform.yScale()` (see `IsXScale`). -/
def shouldUseSubimage (essEq : ℚ → ℚ → Bool) (interpolationQuality : CGInterpolationQuality)
    (destRect srcRect : FloatRect) (transform : AffineTransform)
    (txScale tyScale : ℚ) : Bool :=
  if interpolationQuality == CGInterpolationQuality.none then false
  else if transform.isRotateOrShear then true
  else
    let xScale := destRect.width * txScale / srcRect.width
    let yScale := destRect.height * tyScale / srcRect.height
    !essEq xScale yScale || xScale > 1

/-- The four ways `drawNativeImage` can go for the purposes of the claims. -/
inductive DrawImageChoice where
  | rejected
  | direct
  | subimage
  | inflatedClip
deriving DecidableEq, Repr

/-- The control-flow skeleton of `GraphicsContextCG::drawNativeImage`:
normalize the rectangles, reject a source rect that misses the image bounds,
and when the normalized source rect is not the full image choose between
sub-image extraction (`shouldUseSubimage`) and the inflated-destination
clipping path. -/
def drawNativeImageChoice (essEq : ℚ → ℚ → Bool) (imageSize : FloatSize)
    (destRect srcRect : FloatRect) (interpolationQuality : CGInterpolationQuality)
    (transform : AffineTransform) (txScale tyScale : ℚ) : DrawImageChoice :=
  let imageRect : FloatRect := ⟨0, 0, imageSize.width, imageSize.height⟩
  let normalizedSrcRect := normalizeRect srcRect
  let normalizedDestRect := normalizeRect destRect
  if !imageRect.intersects normalizedSrcRect then DrawImageChoice.rejected
  else if !(normalizedSrcRect == imageRect) then
    if shouldUseSubimage essEq interpolationQuality normalizedDestRect normalizedSrcRect
        transform txScale tyScale then
      DrawImageChoice.subimage
    else
      DrawImageChoice.inflatedClip
  else
    DrawImageChoice.direct

/-- Which tiling strategy `drawPattern` ends in. -/
inductive PatternPath where
  | noop
  | fastTiled
  | callbackTiling
deriving DecidableEq, Repr

/-- The strategy selection of `GraphicsContextCG::drawPattern`: a
non-invertible pattern transform returns early; the single
`CGContextDrawTiledImage` call is used when the backing `CGImage` dimensions
(`CGImageGetWidth/Height`, here `imageWidth`/`imageHeight`) equal the declared
image size and the spacing is zero; otherwise the `CGPattern` callback
mechanism is used. -/
def drawPatternChoice (patternTransform : AffineTransform) (imageSize : FloatSize)
    (imageWidth imageHeight : ℚ) (spacing : FloatSize) : PatternPath :=
  if !patternTransform.isInvertible then PatternPath.noop
  else if imageWidth == imageSize.width && imageHeight == imageSize.height
      && spacing.width == 0 && spacing.height == 0 then
    PatternPath.fastTiled
  else
    PatternPath.callbackTiling

/-- The sub-image selection inside `drawPattern`: the whole image is used as
the tile exactly when the tile rect's size equals the declared image size;
otherwise a cropped sub-image (`CGImageCreateWithImageInRect`) is tiled. -/
def drawPatternUsesCroppedTile (tileRect : FloatRect) (imageSize : FloatSize) : Bool :=
  !(FloatSize.mk tileRect.width tileRect.height == imageSize)

/-- `canUseCGRectInfinite` in `GraphicsContextCG::clipOut(const FloatRect&)`:
the context is not a PDF context, and either the rendering mode is
unaccelerated or the CTM has no rotation/shear components. -/
def canUseCGRectInfinite (ctxType : CGContextType) (mode : RenderingMode)
    (ctm : AffineTransform) : Bool :=
  !(ctxType == CGContextType.pdf)
    && (mode == RenderingMode.unaccelerated || (ctm.b == 0 && ctm.c == 0))

/-- The "everything" region `clipOut(rect)` pairs with the rectangle to
subtract: the infinite rectangle when `canUseCGRectInfinite`, the clip
bounding box otherwise. -/
def clipOutBaseRect (ctxType : CGContextType) (mode : RenderingMode)
    (ctm : AffineTransform) : ClipOutBase :=
  if canUseCGRectInfinite ctxType mode ctm then ClipOutBase.infiniteRect
  else ClipOutBase.clipBoundingBox

/-- `GraphicsContextCG::clipOut(const FloatRect&)` as its backend-call trace. -/
def clipOutRectOps (ctxType : CGContextType) (mode : RenderingMode)
    (ctm : AffineTransform) (rect : FloatRect) : List CGOp :=
  [CGOp.beginPath,
   CGOp.addClipOutRects (clipOutBaseRect ctxType mode ctm) rect,
   CGOp.eoClip]

/-- `GraphicsContextCG::clipOut(const Path&)` as its backend-call trace: add
the clip bounding box, add the path when it is nonempty, and even-odd clip. -/
def clipOutPathOps (clipBoundingBox : FloatRect) (path : Path) : List CGOp :=
  [CGOp.beginPath, CGOp.addRect clipBoundingBox]
    ++ (if !path.isEmpty then [CGOp.addPath] else [])
    ++ [CGOp.eoClip]

/-- `GraphicsContextCG::clipPath` as its backend-call trace: an empty path
clips to `CGRectZero`; otherwise the path is set and clipped with the given
rule. -/
def clipPathOps (path : Path) (clipRule : WindRule) : List CGOp :=
  if path.isEmpty then [CGOp.clipToRect zeroRect]
  else
    [CGOp.beginPath, CGOp.addPath,
     if clipRule == WindRule.evenOdd then CGOp.eoClip else CGOp.clip]

/-- `scaledBlurRadius` (static helper): when shadows do not ignore transforms
the radius is multiplied by the square root of the smaller eigenvalue of
`J^T J` for the linear part `J` of the user-to-base transform; either way the
result is clamped to at most 1000.  The eigenvalue factor involves two nested
square roots and is irrational in general, so it is an explicit input
`smallEigenvalue`, characterized by `IsSmallEigenvalue`. -/
def scaledBlurRadius (blurRadius : ℚ) (smallEigenvalue : ℚ)
    (shadowsIgnoreTransforms : Bool) : ℚ :=
  min (if shadowsIgnoreTransforms then blurRadius else blurRadius * smallEigenvalue) 1000

/-- The entries of `M = J^T J` as `scaledBlurRadius` computes them from the
user-to-base transform (`A`, `B`, `C`, `D` in the C++). -/
def eigenA (t : AffineTransform) : ℚ := t.a * t.a + t.b * t.b

/-- Entry `B` of `J^T J` (equal to entry `C`). -/
def eigenB (t : AffineTransform) : ℚ := t.a * t.c + t.b * t.d

/-- Entry `D` of `J^T J`. -/
def eigenD (t : AffineTransform) : ℚ := t.c * t.c + t.d * t.d

/-- Characterizes the `smallEigenvalue` factor of `scaledBlurRadius` exactly:
`v = sqrt(0.5 * ((A + D) - sqrt(4*B*C + (A - D)^2)))` with `A`, `B`, `C = B`,
`D` the entries of `J^T J`, stated via the squares so it lives in `ℚ`. -/
def IsSmallEigenvalue (t : AffineTransform) (v : ℚ) : Prop :=
  ∃ inner : ℚ, 0 ≤ inner
    ∧ inner ^ 2 = 4 * eigenB t * eigenB t + (eigenA t - eigenD t) ^ 2
    ∧ 0 ≤ v
    ∧ v ^ 2 = (1 / 2) * ((eigenA t + eigenD t) - inner)

/-- `GraphicsContextCG::clearCGDropShadow`: uninstall any backend style. -/
def clearCGDropShadow (B : BackendState) : BackendState :=
  { B with style := none }

/-- `GraphicsContextCG::setCGDropShadow`: a missing shadow, an invalid shadow
color, or a zero offset with zero radius clears the backend style; otherwise
the blur radius is scaled/clamped, the offset is transformed by the
user-to-base transform unless shadows ignore transforms, the global alpha is
set to the shadow's opacity, and the shadow style is installed.
`smallEigenvalue` stands for the eigenvalue factor of `scaledBlurRadius`
computed from `userToBaseCTM` (see `IsSmallEigenvalue`). -/
def setCGDropShadow (shadow : Option DropShadow) (shadowsIgnoreTransforms : Bool)
    (userToBaseCTM : AffineTransform) (smallEigenvalue : ℚ)
    (B : BackendState) : BackendState :=
  match shadow with
  | none => clearCGDropShadow B
  | some sh =>
    if !sh.color.isValid || (sh.offset.isZero && sh.radius == 0) then
      clearCGDropShadow B
    else
      let blurRadius := scaledBlurRadius sh.radius smallEigenvalue shadowsIgnoreTransforms
      let offset :=
        if !shadowsIgnoreTransforms then applySizeTransform userToBaseCTM sh.offset
        else sh.offset
      { B with alpha := sh.opacity, style := some ⟨offset, blurRadius, sh.color⟩ }

/-- `GraphicsContextCG::fillRect(const FloatRect&, const Color&)`: the fill
color is switched to the requested color when it differs from the state's fill
color, the shadow is drawn by the dedicated `ShadowBlur` routine inside a
`CGContextSaveGState`/`RestoreGState` pair when `canUseShadowBlur`, the rect is
filled, and the previous fill color is put back.  `ShadowBlur::drawRectShadow`
is an external collaborator (spec §4.5); it is modelled as a draw call that
leaves the tracked backend fields unchanged.  Returns the (unmodified) context
state, the final backend state, and the emitted trace. -/
def fillRectWithColor (ctx : ContextState) (B : BackendState) (rect : FloatRect)
    (color : Color) : ContextState × BackendState × List CGOp :=
  let oldFillColor := ctx.fillColor
  let changeColor := !(oldFillColor == color)
  let B1 := if changeColor then { B with fillColor := color } else B
  let ops1 := if changeColor then [CGOp.setFillColor color] else []
  let drawOwnShadow := canUseShadowBlur ctx
  let B2 := if drawOwnShadow then B1.push else B1
  let ops2 := if drawOwnShadow then [CGOp.saveGState] else []
  let B3 := if drawOwnShadow then clearCGDropShadow B2 else B2
  let ops3 := if drawOwnShadow then [CGOp.clearStyle, CGOp.drawRectShadow rect] else []
  let ops4 := [CGOp.fillRect rect B3.fillColor]
  let B5 := if drawOwnShadow then B3.pop else B3
  let ops5 := if drawOwnShadow then [CGOp.restoreGState] else []
  let B6 := if changeColor then { B5 with fillColor := oldFillColor } else B5
  let ops6 := if changeColor then [CGOp.setFillColor oldFillColor] else []
  (ctx, B6, ops1 ++ ops2 ++ ops3 ++ ops4 ++ ops5 ++ ops6)

/-- C1: drawing-mode selection is a pure function of the three booleans
`shouldFill` (fill brush visible), `shouldStroke` (stroke brush visible or
stroke style not none) and `useEOFill` (fill rule even-odd), and matches the
spec's table on every combination: fill+stroke gives the combined mode
(even-odd variant under the even-odd rule), fill alone gives the fill mode,
stroke alone gives stroke mode, and with neither fill nor stroke `drawPath`
issues no draw call at all. -/
theorem C1_drawing_mode_table (ctx : ContextState) (path : Path) :
    (calculateDrawingMode ctx).1 = (shouldFill ctx || shouldStroke ctx)
    ∧ (shouldFill ctx = true → shouldStroke ctx = true → useEOFill ctx = true →
        calculateDrawingMode ctx = (true, CGPathDrawingMode.eoFillStroke))
    ∧ (shouldFill ctx = true → shouldStroke ctx = true → useEOFill ctx = false →
        calculateDrawingMode ctx = (true, CGPathDrawingMode.fillStroke))
    ∧ (shouldFill ctx = true → shouldStroke ctx = false → useEOFill ctx = true →
        calculateDrawingMode ctx = (true, CGPathDrawingMode.eoFill))
    ∧ (shouldFill ctx = true → shouldStroke ctx = false → useEOFill ctx = false →
        calculateDrawingMode ctx = (true, CGPathDrawingMode.fill))
    ∧ (shouldFill ctx = false → shouldStroke ctx = true →
        calculateDrawingMode ctx = (true, CGPathDrawingMode.stroke))
    ∧ (shouldFill ctx = false → shouldStroke ctx = false →
        (calculateDrawingMode ctx).1 = false ∧ drawPathOps ctx path = []) := by
  refine ⟨rfl, ?_, ?_, ?_, ?_, ?_, ?_⟩
  · intro hf hs he
    simp only [shouldFill] at hf
    simp only [shouldStroke] at hs
    simp only [useEOFill] at he
    simp [calculateDrawingMode, hf, hs, he]
  · intro hf hs he
    simp only [shouldFill] at hf
    simp only [shouldStroke] at hs
    simp only [useEOFill] at he
    simp [calculateDrawingMode, hf, hs, he]
  · intro hf hs he
    simp only [shouldFill] at hf
    simp only [shouldStroke] at hs
    simp only [useEOFill] at he
    simp [calculateDrawingMode, hf, hs, he]
  · intro hf hs he
    simp only [shouldFill] at hf
    simp only [shouldStroke] at hs
    simp only [useEOFill] at he
    simp [calculateDrawingMode, hf, hs, he]
  · intro hf hs
    simp only [shouldFill] at hf
    simp only [shouldStroke] at hs
    simp [calculateDrawingMode, hf, hs]
  · intro hf hs
    simp only [shouldFill] at hf
    simp only [shouldStroke] at hs
    have hfg : ctx.fillBrush.gradient = false := by
      simp [SourceBrush.isVisible] at hf
      exact hf.1.1
    have hfp : ctx.fillBrush.pattern = false := by
      simp [SourceBrush.isVisible] at hf
      exact hf.1.2
    have hsg : ctx.strokeBrush.gradient = false := by
      simp [SourceBrush.isVisible] at hs
      exact hs.1.1.1
    have hsp : ctx.strokeBrush.pattern = false := by
      simp [SourceBrush.isVisible] at hs
      exact hs.1.1.2
    refine ⟨by simp [calculateDrawingMode, hf, hs], ?_⟩
    cases hpe : path.isEmpty with
    | true => simp [drawPathOps, hpe]
    | false => simp [drawPathOps, hpe, hfg, hfp, hsg, hsp, calculateDrawingMode, hf, hs]

/-- Witness for C1 at a concrete context: visible fill and stroke brushes with
the even-odd rule select the combined even-odd fill-stroke mode. -/
theorem C1_drawing_mode_table_witness :
    calculateDrawingMode
        ⟨⟨⟨true, 1⟩, false, false⟩, ⟨⟨true, 1⟩, false, false⟩, StrokeStyle.solidStroke,
          WindRule.evenOdd, none, false, RenderingMode.unaccelerated, 1⟩
      = (true, CGPathDrawingMode.eoFillStroke) :=
  (C1_drawing_mode_table
      ⟨⟨⟨true, 1⟩, false, false⟩, ⟨⟨true, 1⟩, false, false⟩, StrokeStyle.solidStroke,
        WindRule.evenOdd, none, false, RenderingMode.unaccelerated, 1⟩
      ⟨false, false⟩).2.1 (by decide) (by decide) (by decide)

/-- C2: `restore()` on an empty state stack is a silent no-op: the drawing
state, the backend, the cached identity flag and the emitted trace are all
unchanged, and no backend restore is issued. -/
theorem C2_restore_empty_stack_noop (g : GC) (h : g.stack = []) :
    restoreCG g = g := by
  unfold restoreCG
  rw [h]

/-- Witness for C2 at a concrete context with an empty stack. -/
theorem C2_restore_empty_stack_noop_witness :
    restoreCG
        ⟨⟨SourceBrush.invisible, SourceBrush.invisible, StrokeStyle.noStroke,
            WindRule.nonZero, none, false, RenderingMode.unaccelerated, 1⟩,
          [], ⟨⟨true, 1⟩, none, 1, []⟩, true, []⟩
      = ⟨⟨SourceBrush.invisible, SourceBrush.invisible, StrokeStyle.noStroke,
            WindRule.nonZero, none, false, RenderingMode.unaccelerated, 1⟩,
          [], ⟨⟨true, 1⟩, none, 1, []⟩, true, []⟩ :=
  C2_restore_empty_stack_noop _ rfl

/-- Counterexample to C5 as stated: on an unaccelerated, non-PDF backend whose
CTM is a pure rotation (so it does have rotation/shear), `clipOut` still uses
the infinite rectangle, whereas the claim says rotation/shear always forces the
clip-bounding-box fallback. -/
theorem C5_clipOut_infinite_counterexample :
    clipOutBaseRect CGContextType.bitmap RenderingMode.unaccelerated ⟨0, 1, -1, 0, 0, 0⟩
        = ClipOutBase.infiniteRect
    ∧ (⟨0, 1, -1, 0, 0, 0⟩ : AffineTransform).isRotateOrShear = true := by
  decide

/-- C5 (amended): `clipOut(rect)` uses the infinite "everything" rectangle if
and only if the backend is not a PDF context and, in addition, either the
rendering mode is unaccelerated or the transform has no rotation/shear; only a
PDF context, or an accelerated/PDF-mode context whose transform has
rotation/shear, falls back to the clip bounding box.  The trace always unions
the chosen base region with the rectangle and even-odd clips. -/
theorem C5_clipOut_infinite_amended (ctxType : CGContextType) (mode : RenderingMode)
    (ctm : AffineTransform) (rect : FloatRect) :
    (clipOutBaseRect ctxType mode ctm = ClipOutBase.infiniteRect
      ↔ (ctxType ≠ CGContextType.pdf
          ∧ (mode = RenderingMode.unaccelerated ∨ (ctm.b = 0 ∧ ctm.c = 0))))
    ∧ clipOutRectOps ctxType mode ctm rect
        = [CGOp.beginPath, CGOp.addClipOutRects (clipOutBaseRect ctxType mode ctm) rect,
           CGOp.eoClip] := by
  refine ⟨?_, rfl⟩
  unfold clipOutBaseRect canUseCGRectInfinite
  cases ctxType <;> cases mode <;> simp_all

/-- C7: for every radius and transform, the blur radius produced by
`scaledBlurRadius` is at most 1000; when shadows do not ignore transforms the
radius is first multiplied by the eigenvalue factor (the square root of the
smaller eigenvalue of `J^T J`), and that factor is 1 for the identity
user-to-base transform. -/
theorem C7_blur_radius_clamped (r eig : ℚ) (t : AffineTransform) (ign : Bool)
    (heig : IsSmallEigenvalue t eig) :
    scaledBlurRadius r eig ign ≤ 1000
    ∧ scaledBlurRadius r eig false = min (r * eig) 1000
    ∧ (t = AffineTransform.identity → eig = 1) := by
  refine ⟨min_le_right _ _, by simp [scaledBlurRadius], ?_⟩
  rintro rfl
  obtain ⟨inner, hinner0, hinnersq, heig0, heigsq⟩ := heig
  have hA : eigenA AffineTransform.identity = 1 := by norm_num [eigenA, AffineTransform.identity]
  have hB : eigenB AffineTransform.identity = 0 := by norm_num [eigenB, AffineTransform.identity]
  have hD : eigenD AffineTransform.identity = 1 := by norm_num [eigenD, AffineTransform.identity]
  rw [hA, hB, hD] at hinnersq
  have hinner : inner = 0 := by
    have : inner ^ 2 = 0 := by rw [hinnersq]; ring
    exact pow_eq_zero_iff (n := 2) (by norm_num) |>.mp this
  rw [hA, hD, hinner] at heigsq
  have hsq : eig ^ 2 = 1 := by rw [heigsq]; ring
  have hfac : (eig - 1) * (eig + 1) = 0 := by nlinarith [hsq]
  rcases mul_eq_zero.mp hfac with h | h
  · linarith
  · linarith

/-- Witness for C7 at the identity transform (eigenvalue factor 1) and radius 5. -/
theorem C7_blur_radius_clamped_witness :
    scaledBlurRadius 5 1 true ≤ 1000
    ∧ scaledBlurRadius 5 1 false = min ((5 : ℚ) * 1) 1000 :=
  ⟨(C7_blur_radius_clamped 5 1 AffineTransform.identity true
      ⟨0, by norm_num [eigenA, eigenB, eigenD, AffineTransform.identity]⟩).1,
   (C7_blur_radius_clamped 5 1 AffineTransform.identity false
      ⟨0, by norm_num [eigenA, eigenB, eigenD, AffineTransform.identity]⟩).2.1⟩

/-- C3: inside `drawNativeImage`, when the normalized source rect differs from
the full image bounds (and the draw is not rejected), the sub-image extraction
path is selected if and only if the interpolation quality is not "none" and
(the transform has rotation/shear, or the computed x and y scale factors —
destination extent times transform scale divided by source extent — are not
essentially equal, or the x scale factor exceeds 1).  In particular, with
quality "none" extraction is never selected. -/
theorem C3_subimage_selection (essEq : ℚ → ℚ → Bool) (imageSize : FloatSize)
    (destRect srcRect : FloatRect) (q : CGInterpolationQuality) (t : AffineTransform)
    (sx sy : ℚ) (hsx : IsXScale t sx) (hsy : IsYScale t sy)
    (hintersect : FloatRect.intersects ⟨0, 0, imageSize.width, imageSize.height⟩
        (normalizeRect srcRect) = true)
    (hnotfull : normalizeRect srcRect ≠ ⟨0, 0, imageSize.width, imageSize.height⟩) :
    drawNativeImageChoice essEq imageSize destRect srcRect q t sx sy
        = DrawImageChoice.subimage
      ↔ (q ≠ CGInterpolationQuality.none
          ∧ (t.isRotateOrShear = true
              ∨ essEq ((normalizeRect destRect).width * sx / (normalizeRect srcRect).width)
                  ((normalizeRect destRect).height * sy / (normalizeRect srcRect).height)
                  = false
              ∨ (normalizeRect destRect).width * sx / (normalizeRect srcRect).width > 1)) := by
  have hbeq : (normalizeRect srcRect
        == (⟨0, 0, imageSize.width, imageSize.height⟩ : FloatRect)) = false :=
    beq_eq_false_iff_ne.mpr hnotfull
  have key : shouldUseSubimage essEq q (normalizeRect destRect) (normalizeRect srcRect)
        t sx sy = true
      ↔ (q ≠ CGInterpolationQuality.none
          ∧ (t.isRotateOrShear = true
              ∨ essEq ((normalizeRect destRect).width * sx / (normalizeRect srcRect).width)
                  ((normalizeRect destRect).height * sy / (normalizeRect srcRect).height)
                  = false
              ∨ (normalizeRect destRect).width * sx / (normalizeRect srcRect).width > 1)) := by
    unfold shouldUseSubimage
    by_cases hq : q = CGInterpolationQuality.none
    · subst hq
      simp
    · have hqb : (q == CGInterpolationQuality.none) = false := beq_eq_false_iff_ne.mpr hq
      cases hr : t.isRotateOrShear <;> simp [hqb, hq, hr]
  rw [← key]
  unfold drawNativeImageChoice
  simp only [hintersect, hbeq, Bool.not_true, Bool.not_false, Bool.false_eq_true,
    if_false, if_true]
  cases hu : shouldUseSubimage essEq q (normalizeRect destRect) (normalizeRect srcRect)
      t sx sy <;> simp [hu]

/-- Witness for C3 at a concrete input: a 2-by-2 source rect inside a 4-by-4
image drawn into a 6-by-2 destination under the identity transform has x scale
3 > 1, so the sub-image path is selected. -/
theorem C3_subimage_selection_witness :
    drawNativeImageChoice (fun a b => a == b) ⟨4, 4⟩ ⟨0, 0, 6, 2⟩ ⟨0, 0, 2, 2⟩
        CGInterpolationQuality.high AffineTransform.identity 1 1
      = DrawImageChoice.subimage :=
  (C3_subimage_selection (fun a b => a == b) ⟨4, 4⟩ ⟨0, 0, 6, 2⟩ ⟨0, 0, 2, 2⟩
      CGInterpolationQuality.high AffineTransform.identity 1 1
      (by norm_num [IsXScale, AffineTransform.identity])
      (by norm_num [IsYScale, AffineTransform.identity])
      (by norm_num [FloatRect.intersects, FloatRect.isEmpty, normalizeRect,
        FloatRect.maxX, FloatRect.maxY])
      (by norm_num [normalizeRect, FloatRect.maxX, FloatRect.maxY, FloatRect.mk.injEq])).mpr
    ⟨by decide,
     Or.inr (Or.inr (by norm_num [normalizeRect, FloatRect.maxX, FloatRect.maxY]))⟩

/-- Counterexample to C4 as stated: with a fully decoded 100-by-100 image, a
50-by-50 tile rect (strictly smaller than the image) and zero spacing,
`drawPattern` still selects the fast single `CGContextDrawTiledImage` call —
it merely tiles a cropped sub-image — whereas the claim says any tile rect
other than the full image size selects the general callback path. -/
theorem C4_pattern_fast_path_counterexample :
    drawPatternChoice AffineTransform.identity ⟨100, 100⟩ 100 100 ⟨0, 0⟩
        = PatternPath.fastTiled
    ∧ drawPatternUsesCroppedTile ⟨0, 0, 50, 50⟩ ⟨100, 100⟩ = true := by
  constructor
  · norm_num [drawPatternChoice, AffineTransform.isInvertible, AffineTransform.identity]
  · norm_num [drawPatternUsesCroppedTile, FloatSize.mk.injEq]

/-- C4 (amended): given an invertible pattern transform, `drawPattern` selects
the fast single tiled-image call exactly when the backing image dimensions
equal the declared image size (the image is fully decoded) and the inter-tile
spacing is zero; the tile rect does not enter that decision — it only decides
whether the whole image or a cropped sub-image is the tile. -/
theorem C4_pattern_fast_path_amended (t : AffineTransform) (imageSize : FloatSize)
    (iw ih : ℚ) (tileRect : FloatRect) (spacing : FloatSize)
    (hinv : t.isInvertible = true) :
    (drawPatternChoice t imageSize iw ih spacing = PatternPath.fastTiled
      ↔ (iw = imageSize.width ∧ ih = imageSize.height
          ∧ spacing.width = 0 ∧ spacing.height = 0))
    ∧ (drawPatternUsesCroppedTile tileRect imageSize = false
        ↔ (tileRect.width = imageSize.width ∧ tileRect.height = imageSize.height)) := by
  constructor
  · unfold drawPatternChoice
    by_cases h1 : iw = imageSize.width <;> by_cases h2 : ih = imageSize.height <;>
      by_cases h3 : spacing.width = 0 <;> by_cases h4 : spacing.height = 0 <;>
      simp [hinv, h1, h2, h3, h4]
  · obtain ⟨w, h⟩ := imageSize
    simp [drawPatternUsesCroppedTile, FloatSize.mk.injEq]

/-- Witness for C4 (amended) at a fully decoded 100-by-100 image with zero
spacing: the fast tiled path is selected. -/
theorem C4_pattern_fast_path_amended_witness :
    drawPatternChoice AffineTransform.identity ⟨100, 100⟩ 100 100 ⟨0, 0⟩
      = PatternPath.fastTiled :=
  ((C4_pattern_fast_path_amended AffineTransform.identity ⟨100, 100⟩ 100 100
      ⟨0, 0, 50, 50⟩ ⟨0, 0⟩
      (by norm_num [AffineTransform.isInvertible, AffineTransform.identity])).1).mpr
    (by norm_num)

/-- Counterexample to C6 as stated: with shadows ignoring transforms, a
configured blur radius of 5000 is installed as 1000, not as the raw input
radius — the 1000 clamp applies even on the ignore-transforms path. -/
theorem C6_raw_radius_counterexample :
    scaledBlurRadius 5000 1 true = 1000 ∧ (1000 : ℚ) ≠ 5000 := by
  norm_num [scaledBlurRadius, min_def]

/-- Helper: a shadow that is not (zero offset and zero radius) fails the
degenerate-shadow guard of `setCGDropShadow`. -/
theorem shadowGuard_eq_false (sh : DropShadow)
    (h : ¬(sh.offset.isZero = true ∧ sh.radius = 0)) :
    (sh.offset.isZero && (sh.radius == 0)) = false := by
  cases hz : sh.offset.isZero with
  | false => simp
  | true =>
    have hr : sh.radius ≠ 0 := fun hh => h ⟨hz, hh⟩
    simp [hr]

/-- C6 (amended): when shadows ignore transforms, the installed blur radius is
the raw configured radius clamped to at most 1000 — equal to the raw radius
whenever it does not exceed 1000 — and the configured offset is used
unmodified (no transform is applied to it). -/
theorem C6_ignore_transforms_amended (r eig : ℚ) (sh : DropShadow)
    (t : AffineTransform) (B : BackendState) (hr : r ≤ 1000)
    (hvalid : sh.color.isValid = true)
    (hnondeg : ¬(sh.offset.isZero = true ∧ sh.radius = 0)) :
    scaledBlurRadius r eig true = r
    ∧ scaledBlurRadius sh.radius eig true = min sh.radius 1000
    ∧ setCGDropShadow (some sh) true t eig B
        = { B with alpha := sh.opacity,
                   style := some ⟨sh.offset, min sh.radius 1000, sh.color⟩ } := by
  refine ⟨by simp [scaledBlurRadius, min_eq_left hr], by simp [scaledBlurRadius], ?_⟩
  have hguard := shadowGuard_eq_false sh hnondeg
  simp [setCGDropShadow, hvalid, hguard, scaledBlurRadius]

/-- Witness for C6 (amended): radius 7 with an offset of (1, 2) stays 7 when
shadows ignore transforms. -/
theorem C6_ignore_transforms_amended_witness :
    scaledBlurRadius 7 3 true = 7 :=
  (C6_ignore_transforms_amended 7 3 ⟨⟨1, 2⟩, 5, ⟨true, 1⟩, 1⟩ AffineTransform.identity
      ⟨⟨true, 1⟩, none, 1, []⟩ (by norm_num) rfl
      (by norm_num [FloatSize.isZero])).1

/-- Counterexample to C8 as stated: `clipPath` with an empty path is not a
silent no-op — it issues a backend clip to the zero rectangle (emptying the
clip region). -/
theorem C8_clipPath_empty_counterexample :
    clipPathOps ⟨true, false⟩ WindRule.nonZero = [CGOp.clipToRect zeroRect]
    ∧ clipPathOps ⟨true, false⟩ WindRule.nonZero ≠ [] := by
  refine ⟨rfl, ?_⟩
  simp [clipPathOps]

/-- C8 (amended): `drawPath`, `fillPath` and `strokePath` treat an empty path
as a silent no-op (no backend call at all); the clip operations do not:
`clipPath` with an empty path clips to the zero rectangle, and `clipOut(path)`
with an empty path still issues an even-odd clip against the current clip
bounding box alone (geometrically a no-op, but backend calls are made). -/
theorem C8_empty_path_amended (ctx : ContextState) (path : Path) (rule : WindRule)
    (bbox : FloatRect) (h : path.isEmpty = true) :
    drawPathOps ctx path = []
    ∧ fillPathOps ctx path = []
    ∧ strokePathOps ctx path = []
    ∧ clipPathOps path rule = [CGOp.clipToRect zeroRect]
    ∧ clipOutPathOps bbox path = [CGOp.beginPath, CGOp.addRect bbox, CGOp.eoClip] := by
  refine ⟨?_, ?_, ?_, ?_, ?_⟩ <;>
    simp [drawPathOps, fillPathOps, strokePathOps, clipPathOps, clipOutPathOps, h]

/-- Witness for C8 (amended) at a concrete empty path and clip bounding box. -/
theorem C8_empty_path_amended_witness :
    clipOutPathOps ⟨0, 0, 10, 10⟩ ⟨true, false⟩
      = [CGOp.beginPath, CGOp.addRect ⟨0, 0, 10, 10⟩, CGOp.eoClip] :=
  (C8_empty_path_amended
      ⟨SourceBrush.invisible, SourceBrush.invisible, StrokeStyle.noStroke,
        WindRule.nonZero, none, false, RenderingMode.unaccelerated, 1⟩
      ⟨true, false⟩ WindRule.nonZero ⟨0, 0, 10, 10⟩ rfl).2.2.2.2

/-- Counterexample to C9 as stated: a fully transparent but valid shadow color
with a nonzero radius does not clear the shadow state — `setCGDropShadow`
installs a (degenerate, invisible) shadow style, because the code only checks
`Color::isValid`, not transparency. -/
theorem C9_transparent_color_counterexample :
    (setCGDropShadow (some ⟨⟨1, 0⟩, 5, Color.transparent, 1⟩) false
        AffineTransform.identity 1 ⟨Color.opaqueBlack, none, 1, []⟩).style
      = some ⟨⟨1, 0⟩, 5, Color.transparent⟩
    ∧ Color.transparent.isValid = true ∧ Color.transparent.alpha = 0 := by
  refine ⟨?_, rfl, rfl⟩
  norm_num [setCGDropShadow, clearCGDropShadow, scaledBlurRadius, applySizeTransform,
    Color.transparent, AffineTransform.identity, FloatSize.isZero, min_def]

/-- C9 (amended): `setCGDropShadow` clears the backend shadow state exactly
when the shadow is missing, its color is invalid, or its offset is zero and
its radius is zero; a valid but fully transparent color is not special-cased
and installs the shadow style. -/
theorem C9_shadow_clear_amended (shadow : Option DropShadow) (ign : Bool)
    (t : AffineTransform) (eig : ℚ) (B : BackendState) :
    (setCGDropShadow shadow ign t eig B).style = none
      ↔ (shadow = none
          ∨ ∃ sh, shadow = some sh
              ∧ (sh.color.isValid = false
                  ∨ (sh.offset.isZero = true ∧ sh.radius = 0))) := by
  cases shadow with
  | none => simp [setCGDropShadow, clearCGDropShadow]
  | some sh =>
    by_cases hv : sh.color.isValid = true
    · by_cases hz : sh.offset.isZero = true ∧ sh.radius = 0
      · have hg : (sh.offset.isZero && (sh.radius == 0)) = true := by
          simp [hz.1, hz.2]
        simp [setCGDropShadow, clearCGDropShadow, hv, hg, hz]
      · have hg := shadowGuard_eq_false sh hz
        simp [setCGDropShadow, clearCGDropShadow, hv, hg, hz]
    · have hv' : sh.color.isValid = false := by
        cases h : sh.color.isValid
        · rfl
        · exact absurd h hv
      simp [setCGDropShadow, clearCGDropShadow, hv']

/-- C10: `fillRect(rect, color)` leaves the context's drawing state untouched
and restores the backend exactly: given a backend whose fill color is in sync
with the state's fill color, the backend state on exit equals the backend
state on entry (the previous fill color is put back), and the fill itself is
issued with the requested color as the current fill color. -/
theorem C10_fillRect_preserves_fill_color (ctx : ContextState) (B : BackendState)
    (rect : FloatRect) (color : Color) (hsync : B.fillColor = ctx.fillColor) :
    (fillRectWithColor ctx B rect color).1 = ctx
    ∧ (fillRectWithColor ctx B rect color).2.1 = B
    ∧ CGOp.fillRect rect color ∈ (fillRectWithColor ctx B rect color).2.2 := by
  obtain ⟨bfc, bst, bal, bgs⟩ := B
  unfold fillRectWithColor
  by_cases hc : ctx.fillColor = color
  · have hcb : (ctx.fillColor == color) = true := beq_iff_eq.mpr hc
    by_cases hd : canUseShadowBlur ctx = true
    · simp_all [BackendState.push, BackendState.pop, clearCGDropShadow,
        ContextState.fillColor]
    · have hd' : canUseShadowBlur ctx = false := by
        cases h : canUseShadowBlur ctx
        · rfl
        · exact absurd h hd
      simp_all [ContextState.fillColor]
  · have hcb : (ctx.fillColor == color) = false := beq_eq_false_iff_ne.mpr hc
    by_cases hd : canUseShadowBlur ctx = true
    · simp_all [BackendState.push, BackendState.pop, clearCGDropShadow,
        ContextState.fillColor]
    · have hd' : canUseShadowBlur ctx = false := by
        cases h : canUseShadowBlur ctx
        · rfl
        · exact absurd h hd
      simp_all [ContextState.fillColor]

/-- Witness for C10 at a concrete context and backend: filling with a color
different from the current fill color leaves the backend state unchanged. -/
theorem C10_fillRect_preserves_fill_color_witness :
    (fillRectWithColor
        ⟨⟨⟨true, 1⟩, false, false⟩, SourceBrush.invisible, StrokeStyle.noStroke,
          WindRule.nonZero, none, false, RenderingMode.unaccelerated, 1⟩
        ⟨⟨true, 1⟩, none, 1, []⟩ ⟨0, 0, 10, 10⟩ ⟨true, 1 / 2⟩).2.1
      = ⟨⟨true, 1⟩, none, 1, []⟩ :=
  (C10_fillRect_preserves_fill_color
      ⟨⟨⟨true, 1⟩, false, false⟩, SourceBrush.invisible, StrokeStyle.noStroke,
        WindRule.nonZero, none, false, RenderingMode.unaccelerated, 1⟩
      ⟨⟨true, 1⟩, none, 1, []⟩ ⟨0, 0, 10, 10⟩ ⟨true, 1 / 2⟩ rfl).2.1

end GCCG
